import Mathlib

/-!
Shallow embedding of the cheshire terminal-visualization renderers
(waffle chart, pie chart, matrix heatmap, map renderer) together with
proofs about them.  Python floats are modelled as exact rationals,
Python ints as Lean integers, and a Python raise as `Except.error`.
-/

/-- Python `int(x)` applied to a rational: truncation toward zero. -/
def pyInt (q : ℚ) : ℤ :=
  if 0 ≤ q then ⌊q⌋ else -⌊-q⌋

/-- Python `round(x)` applied to a rational: round half to even. -/
def pyRound (q : ℚ) : ℤ :=
  let f := ⌊q⌋
  let frac := q - f
  if frac < 1/2 then f
  else if 1/2 < frac then f + 1
  else if f % 2 = 0 then f else f + 1

/-- Python string repetition `s * n` with a possibly non-positive count. -/
def pyRepeat (n : ℤ) (s : String) : String :=
  String.join (List.replicate n.toNat s)

/-- Python `str.center(width)`; CPython places
`marg / 2 + (marg & width & 1)` fill characters on the left. -/
def pyCenter (width : ℤ) (s : String) : String :=
  if width ≤ (s.length : ℤ) then s
  else
    let w := width.toNat
    let marg := w - s.length
    let left := marg / 2 + (marg &&& w &&& 1)
    pyRepeat (left : ℤ) " " ++ s ++ pyRepeat ((marg - left : ℕ) : ℤ) " "

/-- Python `str.rjust(width)`. -/
def pyRJust (width : ℤ) (s : String) : String :=
  if width ≤ (s.length : ℤ) then s
  else pyRepeat (width - (s.length : ℤ)) " " ++ s

/-- Python `x or d` for a number `x`: yields `d` exactly when `x` is zero. -/
def pyOrQ (x d : ℚ) : ℚ := if x = 0 then d else x

/-- Python `min` over a list of rationals (0 on `[]`, which Python rejects). -/
def pyMinQ : List ℚ → ℚ
  | [] => 0
  | x :: xs => xs.foldl min x

/-- Python `max` over a list of rationals (0 on `[]`, which Python rejects). -/
def pyMaxQ : List ℚ → ℚ
  | [] => 0
  | x :: xs => xs.foldl max x

/-- Python `max(len(str(x)) for x in l)` over strings (0 on the empty list). -/
def maxLen (l : List String) : ℕ := (l.map String.length).foldl max 0

/-- Decimal digits of a natural number with `,` thousands separators,
as produced by Python's `,` format flag. -/
def commaGroup (n : ℕ) : String :=
  let cs := (toString n).toList
  let k := cs.length
  String.mk (cs.enum.flatMap (fun p =>
    if p.1 ≠ 0 ∧ (k - p.1) % 3 = 0 then [',', p.2] else [p.2]))

/-- Python `f-string` formatting with spec `,.0f`: round half to even to an
integer and insert thousands separators. -/
def fmtComma0 (q : ℚ) : String :=
  let sign := if q < 0 then "-" else ""
  sign ++ commaGroup (pyRound |q|).toNat

/-- Python `f-string` formatting with spec `.1f`: one decimal digit,
round half to even. -/
def fmtFixed1 (q : ℚ) : String :=
  let sign := if q < 0 then "-" else ""
  let m := (pyRound (|q| * 10)).toNat
  sign ++ toString (m / 10) ++ "." ++ toString (m % 10)

/-- The true-color ANSI escape `\033[38;2;r;g;bm` built from an RGB triple. -/
def ansiRGB (c : ℤ × ℤ × ℤ) : String :=
  "\x1b[38;2;" ++ toString c.1 ++ ";" ++ toString c.2.1 ++ ";" ++
    toString c.2.2 ++ "m"

/-- Python truthiness of an optional string: `None` and `""` are falsy. -/
def optTruthy (o : Option String) : Bool :=
  match o with
  | some s => decide (s ≠ "")
  | none => false

/-- Python `str.lower()` for the ASCII colour names used here, one character
at a time. -/
def pyLower (s : String) : String :=
  String.mk (s.data.map Char.toLower)

/-- Lexicographic code-point comparison of character lists, as Python
compares strings. -/
def strLeChars : List Char → List Char → Bool
  | [], _ => true
  | _ :: _, [] => false
  | a :: as, b :: bs =>
    if a.toNat < b.toNat then true
    else if b.toNat < a.toNat then false
    else strLeChars as bs

/-- Python string comparison `a <= b` (code-point lexicographic order). -/
def pyStrLe (a b : String) : Bool := strLeChars a.data b.data

/-- Insert `x` into `acc` after every element `y` with `le y x`. -/
def insSorted {α : Type} (le : α → α → Bool) : List α → α → List α
  | [], x => [x]
  | y :: ys, x => if le y x then y :: insSorted le ys x else x :: y :: ys

/-- Python's stable `sorted` (and `list.sort`) for a total preorder `le`:
a stable insertion sort, scanning the input left to right so that elements
comparing equal keep their original order. -/
def pySortedBy {α : Type} (le : α → α → Bool) (l : List α) : List α :=
  l.foldl (insSorted le) []

/-- Read a cell of a row-major grid with a default. -/
def get2 {α : Type} (g : List (List α)) (y x : ℕ) (d : α) : α :=
  (g.getD y []).getD x d

/-- Write a cell of a row-major grid (no-op outside the grid, like a guarded
Python index assignment). -/
def set2 {α : Type} (g : List (List α)) (y x : ℕ) (v : α) : List (List α) :=
  g.set y ((g.getD y []).set x v)

namespace WaffleChart

/-- The fixed curated "distinct" palette of `generate_colors`
(src/cheshire/waffle_chart.py lines 161-178). -/
def distinct_palette : List (ℤ × ℤ × ℤ) :=
  [(26, 188, 156), (52, 152, 219), (155, 89, 182), (231, 76, 60),
   (230, 126, 34), (241, 196, 15), (46, 204, 113), (149, 165, 166),
   (52, 73, 94), (192, 57, 43), (142, 68, 173), (39, 174, 96),
   (243, 156, 18), (211, 84, 0), (41, 128, 185), (127, 140, 141)]

/-- The "distinct" branch of `generate_colors` (line 179).  For `n` beyond the
palette length the source evaluates `palette * (n // len(palette) + 1)[:n]`:
subscripting binds tighter than `*`, so `(n // len(palette) + 1)[:n]`
subscripts an `int` and raises `TypeError`, modelled as `Except.error`. -/
def distinct_result (n : ℕ) : Except String (List (ℤ × ℤ × ℤ)) :=
  if n ≤ distinct_palette.length then .ok (distinct_palette.take n)
  else .error "TypeError: int object is not subscriptable"

/-- The "gradient" branch of `generate_colors` (lines 181-197):
green to yellow to red. -/
def gradient_colors (n : ℕ) : List (ℤ × ℤ × ℤ) :=
  (List.range n).map (fun i =>
    let t : ℚ := (i : ℚ) / ((max 1 (n - 1) : ℕ) : ℚ)
    if t ≤ 1/2 then (pyInt (t * 2 * 255), 255, 0)
    else (255, pyInt ((1 - (t - 1/2) * 2) * 255), 0))

/-- The "monochrome" branch of `generate_colors` (lines 199-208):
shades of blue. -/
def monochrome_colors (n : ℕ) : List (ℤ × ℤ × ℤ) :=
  (List.range n).map (fun i =>
    let intensity : ℚ := 3/10 + 7/10 * ((i : ℚ) / ((max 1 (n - 1) : ℕ) : ℚ))
    (pyInt (52 * intensity), pyInt (152 * intensity), pyInt (219 * intensity)))

/-- Model of `generate_colors`, src/cheshire/waffle_chart.py lines 149-212.
An unknown scheme falls back to the "distinct" branch (line 212). -/
def generate_colors (n : ℕ) (scheme : String)
    (custom_colors : List (ℤ × ℤ × ℤ)) : Except String (List (ℤ × ℤ × ℤ)) :=
  if custom_colors ≠ [] ∧ n ≤ custom_colors.length then .ok (custom_colors.take n)
  else if scheme = "distinct" then distinct_result n
  else if scheme = "gradient" then .ok (gradient_colors n)
  else if scheme = "monochrome" then .ok (monochrome_colors n)
  else distinct_result n

/-- The cell-count loop of `render_waffle_chart` (lines 59-69): every value but
the last contributes `round(value / total * total_cells)` cells and is
subtracted from the remaining budget; the last value receives whatever
remains. -/
def cell_counts_aux (total : ℚ) (total_cells : ℤ) : List ℚ → ℤ → List ℤ
  | [], _ => []
  | [_], remaining => [remaining]
  | v :: w :: rest, remaining =>
    let c := pyRound (v / total * (total_cells : ℚ))
    c :: cell_counts_aux total total_cells (w :: rest) (remaining - c)

/-- Cell counts for a list of (already clamped) values, entered with the whole
cell budget remaining. -/
def cell_counts (values : List ℚ) (total_cells : ℤ) : List ℤ :=
  cell_counts_aux values.sum total_cells values total_cells

/-- Python truthiness of the optional label list: `None` and `[]` are falsy. -/
def labelsTruthy (labels : Option (List String)) : Bool :=
  match labels with
  | some (_ :: _) => true
  | _ => false

/-- Legend value rendering of lines 131-137 (`M`/`K` suffixes). -/
def legend_value (value : ℚ) : String :=
  if 1000000 ≤ value then fmtFixed1 (value / 1000000) ++ "M"
  else if 1000 ≤ value then fmtFixed1 (value / 1000) ++ "K"
  else fmtComma0 value

/-- Model of `render_waffle_chart` (src/cheshire/waffle_chart.py lines 10-146) over
exact rationals.  Input values are already numeric, so the
`float(v)`/`except` coercion of lines 44-50 reduces to the `max(0, v)` clamp.
A raise inside (from `generate_colors`) becomes `Except.error`. -/
def render_waffle_chart (values : List ℚ) (labels : Option (List String))
    (title : Option String) (total_cells cells_per_row : ℤ)
    (cell_char empty_char : String) (show_legend show_percentages : Bool)
    (color_scheme : String) (custom_colors : List (ℤ × ℤ × ℤ)) :
    Except String String :=
  if values = [] then .ok "No data to display"
  else
    let numeric := values.map (fun v => max 0 v)
    let total := numeric.sum
    if total = 0 then .ok "No data to display (all values are zero)"
    else
      let counts := cell_counts numeric total_cells
      match generate_colors numeric.length color_scheme custom_colors with
      | .error e => .error e
      | .ok colors =>
        let cells : List ℤ :=
          counts.enum.flatMap (fun p => List.replicate p.2.toNat (p.1 : ℤ))
        let cells := cells ++ List.replicate (total_cells.toNat - cells.length) (-1)
        let titleLines : List String :=
          if optTruthy title then ["\x1b[1m" ++ title.getD "" ++ "\x1b[0m", ""]
          else []
        let num_rows := (⌈(total_cells : ℚ) / (cells_per_row : ℚ)⌉ : ℤ)
        let grid : List String :=
          (List.range num_rows.toNat).map (fun row =>
            String.intercalate " "
              ((List.range cells_per_row.toNat).map (fun col =>
                let idx := row * cells_per_row.toNat + col
                if idx < cells.length then
                  let cv := cells.getD idx 0
                  if cv = -1 then "\x1b[90m" ++ empty_char ++ "\x1b[0m"
                  else ansiRGB (colors.getD cv.toNat (0, 0, 0)) ++ cell_char ++ "\x1b[0m"
                else " ")))
        let legendLines : List String :=
          if show_legend ∧ labelsTruthy labels then
            let ls := labels.getD []
            ["", pyRepeat (cells_per_row * 2 - 1) "─"] ++
              ((ls.zip (numeric.zip counts)).enum.flatMap (fun p =>
                let i := p.1
                let label := p.2.1
                let value := p.2.2.1
                let count := p.2.2.2
                if 0 < count then
                  [String.intercalate " "
                    ([ansiRGB (colors.getD i (0, 0, 0)) ++ cell_char ++ "\x1b[0m",
                      label] ++
                     (if show_percentages then
                        ["(" ++ fmtFixed1 (value / total * 100) ++ "%)"]
                      else []) ++
                     ["= " ++ legend_value value])]
                else []))
          else []
        let summaryLines : List String :=
          if ¬ labelsTruthy labels ∨ ¬ show_legend then
            ["", "Total: " ++ fmtComma0 total]
          else []
        .ok (String.intercalate "\n"
          (titleLines ++ grid ++ legendLines ++ summaryLines))

/-- The filled-cell count of `render_progress_waffle` (lines 235-237):
the ratio `value / total` clamped into `[0, 1]`, scaled to the grid and
rounded. -/
def progress_filled_cells (value total : ℚ) (width height : ℕ) : ℤ :=
  pyRound (min 1 (max 0 (value / total)) * ((width * height : ℕ) : ℚ))

/-- Model of `render_progress_waffle` (src/cheshire/waffle_chart.py lines 215-268). -/
def render_progress_waffle (value total : ℚ) (title : Option String)
    (width height : ℕ) (filled_char empty_char : String)
    (color_good color_warning color_danger : ℤ × ℤ × ℤ)
    (warning_threshold danger_threshold : ℚ) : String :=
  if total ≤ 0 then "Invalid total value"
  else
    let percentage := min 1 (max 0 (value / total))
    let filled := progress_filled_cells value total width height
    let rgb :=
      if warning_threshold ≤ percentage then color_good
      else if danger_threshold ≤ percentage then color_warning
      else color_danger
    let titleLines : List String :=
      if optTruthy title then ["\x1b[1m" ++ title.getD "" ++ "\x1b[0m"]
      else []
    let bar : List String :=
      (List.range height).map (fun row =>
        String.join ((List.range width).map (fun col =>
          let idx := row * width + col
          if (idx : ℤ) < filled then ansiRGB rgb ++ filled_char ++ "\x1b[0m"
          else "\x1b[90m" ++ empty_char ++ "\x1b[0m")))
    let stats : List String :=
      ["", fmtComma0 value ++ " / " ++ fmtComma0 total ++
        " (" ++ fmtFixed1 (percentage * 100) ++ "%)"]
    String.intercalate "\n" (titleLines ++ bar ++ stats)

end WaffleChart

namespace PieChart

/-- The fixed curated "distinct" palette of the pie chart's `generate_colors`
(src/pie_chart.py lines 328-339). -/
def distinct_palette : List (ℤ × ℤ × ℤ) :=
  [(26, 188, 156), (52, 152, 219), (155, 89, 182), (231, 76, 60),
   (230, 126, 34), (241, 196, 15), (46, 204, 113), (149, 165, 166),
   (52, 73, 94), (192, 57, 43)]

/-- The "distinct" branch of the pie chart's `generate_colors` (line 340).
As in the waffle chart, `palette * (n // len(palette) + 1)[:n]` subscripts
an `int` and raises `TypeError` whenever `n` exceeds the palette length;
the raise is modelled as `Except.error`. -/
def distinct_result (n : ℕ) : Except String (List (ℤ × ℤ × ℤ)) :=
  if n ≤ distinct_palette.length then .ok (distinct_palette.take n)
  else .error "TypeError: int object is not subscriptable"

/-- Model of `hsv_to_rgb` (src/pie_chart.py lines 364-384). -/
def hsv_to_rgb (h s v : ℚ) : ℚ × ℚ × ℚ :=
  let i := pyInt (h * 6)
  let f := h * 6 - i
  let p := v * (1 - s)
  let q := v * (1 - f * s)
  let t := v * (1 - (1 - f) * s)
  let i := i % 6
  if i = 0 then (v, t, p)
  else if i = 1 then (q, v, p)
  else if i = 2 then (p, v, t)
  else if i = 3 then (p, q, v)
  else if i = 4 then (t, p, v)
  else (v, p, q)

/-- The "gradient" branch of the pie chart's `generate_colors`
(lines 342-349): a rainbow over hues `i / n`. -/
def gradient_colors (n : ℕ) : List (ℤ × ℤ × ℤ) :=
  (List.range n).map (fun i =>
    let c := hsv_to_rgb ((i : ℚ) / (n : ℚ)) 1 1
    (pyInt (c.1 * 255), pyInt (c.2.1 * 255), pyInt (c.2.2 * 255)))

/-- The "pastel" branch of the pie chart's `generate_colors`
(lines 351-358). -/
def pastel_colors (n : ℕ) : List (ℤ × ℤ × ℤ) :=
  (List.range n).map (fun i =>
    let c := hsv_to_rgb ((i : ℚ) / (n : ℚ)) (1/2) (95/100)
    (pyInt (c.1 * 255), pyInt (c.2.1 * 255), pyInt (c.2.2 * 255)))

/-- Model of `generate_colors`, src/pie_chart.py lines 316-361.  An unknown scheme
falls back to the "distinct" branch (line 361). -/
def generate_colors (n : ℕ) (scheme : String)
    (custom_colors : List (ℤ × ℤ × ℤ)) : Except String (List (ℤ × ℤ × ℤ)) :=
  if custom_colors ≠ [] ∧ n ≤ custom_colors.length then .ok (custom_colors.take n)
  else if scheme = "distinct" then distinct_result n
  else if scheme = "gradient" then .ok (gradient_colors n)
  else if scheme = "pastel" then .ok (pastel_colors n)
  else distinct_result n

end PieChart

section PieAngles

variable {K : Type} [LinearOrderedField K]

/-- The angle-accumulation loop of `render_pie_chart`
(src/pie_chart.py lines 57-63): each value contributes a sector
`(current, current + value / total * 2 * pi)` and advances the cursor.
The field is kept abstract so the definition stays executable; the
theorems instantiate it at `ℝ` with `pi = Real.pi`. -/
def pie_angles_aux (pi total : K) : K → List K → List (K × K)
  | _, [] => []
  | cur, v :: rest =>
    (cur, cur + v / total * 2 * pi) :: pie_angles_aux pi total (cur + v / total * 2 * pi) rest

/-- Sector angle list of `render_pie_chart`: the cursor starts at `-pi / 2`
(the top of the circle) and the total is the sum of the values. -/
def pie_angles (pi : K) (values : List K) : List (K × K) :=
  pie_angles_aux pi values.sum (-(pi / 2)) values

end PieAngles

/-- Model of `render_pie_chart` (src/pie_chart.py lines 12-168): the input guard and
clamping stage (lines 39-55).  The remaining stage (lines 57-168) draws the
circle with float `atan2`/`sqrt` geometry and queries the terminal size when
`auto_size` is set; it is abstracted as `body`, applied to the clamped
values, their total and the labels. -/
def render_pie_chart (body : List ℚ → ℚ → Option (List String) → String)
    (values : List ℚ) (labels : Option (List String)) : String :=
  if values = [] then "No data to display"
  else
    let numeric := values.map (fun v => max 0 v)
    let total := numeric.sum
    if total = 0 then "No data to display (all values are zero)"
    else body numeric total labels

namespace MatrixHeatmap

/-- The value attached to data row `i` in `render_matrix_heatmap`
(src/cheshire/matrix_heatmap.py line 49): `cell_values[i]` when the list is
truthy and long enough, else `1`.  The Python `None` default behaves like
`[]` (both falsy), so the optional list is modelled as a plain list. -/
def matrix_cell_value (cvs : List ℚ) (i : ℕ) : ℚ :=
  if cvs ≠ [] ∧ i < cvs.length then cvs.getD i 0 else 1

/-- Pivot aggregation of lines 44-55: summing the values of all rows whose
`(x, y)` pair matches, walking the zipped `(x, y)` pairs with their index. -/
def pivot_sum (cvs : List ℚ) (y x : String) : List (String × String) → ℕ → ℚ
  | [], _ => 0
  | (xv, yv) :: rest, i =>
    (if xv = x ∧ yv = y then matrix_cell_value cvs i else 0) +
      pivot_sum cvs y x rest (i + 1)

/-- Python `pivot_data.get(y, {}).get(x, 0)`: the aggregated cell value for `(y, x)`
(0 when the pair never occurs). -/
def pivot_get (xs ys : List String) (cvs : List ℚ) (y x : String) : ℚ :=
  pivot_sum cvs y x (xs.zip ys) 0

/-- Python `sum(pivot_data.get(y, {}).values())` (line 78): the total of all values
whose row has the given `y`. -/
def row_sum (cvs : List ℚ) (y : String) : List (String × String) → ℕ → ℚ
  | [], _ => 0
  | (_, yv) :: rest, i =>
    (if yv = y then matrix_cell_value cvs i else 0) + row_sum cvs y rest (i + 1)

/-- Python `sorted(list(set(l)), key=lambda v: (v is None, str(v)))` specialised to
string keys: distinct elements in increasing string order. -/
def sorted_strings (l : List String) : List String :=
  pySortedBy pyStrLe l.dedup

/-- Dict entry `x_totals[x]` of lines 67-71: the column total of `x` over the (full)
unique `y` values. -/
def x_total (xs ys : List String) (cvs : List ℚ) (uy : List String)
    (x : String) : ℚ :=
  (uy.map (fun y => pivot_get xs ys cvs y x)).sum

/-- The unique, sorted `x` dimension (line 58), truncated to the top 20
columns by total value when there are more than 20 (lines 65-72; Python's
`sorted(..., reverse=True)` is a stable descending sort). -/
def matrix_unique_x (xs ys : List String) (cvs : List ℚ) : List String :=
  let ux := sorted_strings xs
  let uy := sorted_strings ys
  if 20 < ux.length then
    (pySortedBy (fun a b =>
      decide (x_total xs ys cvs uy b ≤ x_total xs ys cvs uy a)) ux).take 20
  else ux

/-- The unique, sorted `y` dimension (line 59), truncated to the top 20 rows
by row total when there are more than 20 (lines 74-80). -/
def matrix_unique_y (xs ys : List String) (cvs : List ℚ) : List String :=
  let uy := sorted_strings ys
  if 20 < uy.length then
    (pySortedBy (fun a b =>
      decide (row_sum cvs b (xs.zip ys) 0 ≤ row_sum cvs a (xs.zip ys) 0)) uy).take 20
  else uy

/-- List `all_values` of lines 110-115: every positive pivot value over the
displayed grid, used for the colour scale. -/
def matrix_all_values (xs ys : List String) (cvs : List ℚ) : List ℚ :=
  let ux := matrix_unique_x xs ys cvs
  let uy := matrix_unique_y xs ys cvs
  uy.flatMap (fun y =>
    (ux.map (fun x => pivot_get xs ys cvs y x)).filter (fun v => decide (0 < v)))

/-- Colour normalisation of lines 149-153: linear in `[min_val, max_val]`,
and the gradient midpoint `0.5` when the scale is degenerate
(`min_val == max_val`). -/
def matrix_normalized (value min_val max_val : ℚ) : ℚ :=
  if min_val < max_val then (value - min_val) / (max_val - min_val) else 1/2

/-- The colour gradients of lines 156-188. -/
def heat_color (scheme : String) (normalized : ℚ) : ℤ × ℤ × ℤ :=
  if scheme = "green_yellow_red" then
    if normalized ≤ 1/2 then (pyInt (normalized * 2 * 255), 255, 0)
    else (255, pyInt ((1 - (normalized - 1/2) * 2) * 255), 0)
  else if scheme = "blue_white_red" then
    if normalized ≤ 1/2 then
      (pyInt (normalized * 2 * 255), pyInt (normalized * 2 * 255), 255)
    else
      (255, pyInt ((1 - (normalized - 1/2) * 2) * 255),
        pyInt ((1 - (normalized - 1/2) * 2) * 255))
  else
    if normalized ≤ 1/2 then
      (pyInt (normalized * 2 * 255), pyInt (normalized * 2 * 220),
        255 - pyInt (normalized * 2 * 55))
    else
      (255, 220 - pyInt ((normalized - 1/2) * 2 * 140),
        200 - pyInt ((normalized - 1/2) * 2 * 200))

/-- Model of `render_matrix_heatmap` (src/cheshire/matrix_heatmap.py lines 10-229).
`term` models the result of `os.get_terminal_size()` as
`(columns, lines)`, with `none` for the `except` fallback; it is consulted
only when `width`/`height` are not supplied.  `pyFormat` models Python's
format engine for a user-supplied `value_format` other than the default
`".0f"` (which is embedded exactly as `fmtComma0`). -/
def render_matrix_heatmap (pyFormat : String → ℚ → String)
    (term : Option (ℤ × ℤ)) (x_values y_values : List String)
    (cell_values : List ℚ) (title x_label y_label : Option String)
    (width height : Option ℤ) (value_format : String) (show_values : Bool)
    (color_scheme : String) : String :=
  if x_values = [] ∨ y_values = [] then "No data to display"
  else
    let ux := matrix_unique_x x_values y_values cell_values
    let uy := matrix_unique_y x_values y_values cell_values
    let max_x_label_len : ℕ := if ux ≠ [] then maxLen ux else 5
    let max_y_label_len : ℕ := if uy ≠ [] then maxLen uy else 5
    let cw0 : ℕ := max 6 (max_x_label_len + 1)
    let cell_width : ℕ := if show_values then max cw0 8 else cw0
    let width_val : ℤ :=
      match width with
      | some w => w
      | none =>
        match term with
        | some tc => min (tc.1 - 4)
            ((max_y_label_len : ℤ) + 2 + (ux.length : ℤ) * (cell_width : ℤ))
        | none => (max_y_label_len : ℤ) + 2 +
            ((min ux.length 15 : ℕ) : ℤ) * (cell_width : ℤ)
    let _height_val : ℤ :=
      match height with
      | some h => h
      | none =>
        match term with
        | some tc => min (tc.2 - 10) ((uy.length : ℤ) + 5)
        | none => min 30 ((uy.length : ℤ) + 5)
    let av := matrix_all_values x_values y_values cell_values
    if av = [] then "No data to display"
    else
      let min_val := pyMinQ av
      let max_val := pyMaxQ av
      let titleLines : List String :=
        if optTruthy title then
          ["\x1b[1m" ++ pyCenter width_val (title.getD "") ++ "\x1b[0m", ""]
        else []
      let header := pyRepeat ((max_y_label_len : ℤ) + 2) " " ++
        String.join (ux.map (fun x =>
          pyCenter (cell_width : ℤ) (x.take (cell_width - 1))))
      let sep := pyRepeat ((max_y_label_len : ℤ) + 1) "─" ++ "┬" ++
        pyRepeat ((ux.length * cell_width : ℕ) : ℤ) "─"
      let rows := uy.map (fun y =>
        pyRJust (max_y_label_len : ℤ) (y.take max_y_label_len) ++ " │" ++
          String.join (ux.map (fun x =>
            let value := pivot_get x_values y_values cell_values y x
            if 0 < value then
              let normalized := matrix_normalized value min_val max_val
              let color := ansiRGB (heat_color color_scheme normalized)
              let content :=
                if show_values then
                  pyCenter (cell_width : ℤ)
                    ((if value_format = ".0f" then fmtComma0 value
                      else pyFormat value_format value).take (cell_width - 1))
                else pyCenter (cell_width : ℤ) (pyRepeat ((cell_width - 1 : ℕ) : ℤ) "█")
              color ++ content ++ "\x1b[0m"
            else pyRepeat (cell_width : ℤ) " ")))
      let axisLines : List String :=
        if optTruthy x_label ∨ optTruthy y_label then
          [""] ++
          (if optTruthy x_label then
            [pyRepeat ((max_y_label_len : ℤ) + 2) " " ++
              pyCenter ((ux.length * cell_width : ℕ) : ℤ)
                ("← " ++ x_label.getD "" ++ " →")]
           else []) ++
          (if optTruthy y_label then
            [pyCenter (max_y_label_len : ℤ) ("↑ " ++ y_label.getD "" ++ " ↓")]
           else [])
        else []
      let legend : List String :=
        ["", "Scale: " ++
          "\x1b[38;2;0;255;0m█\x1b[0m " ++ fmtComma0 min_val ++ " " ++
          "\x1b[38;2;128;255;0m█\x1b[0m " ++
          "\x1b[38;2;255;255;0m█\x1b[0m " ++ fmtComma0 ((min_val + max_val) / 2) ++ " " ++
          "\x1b[38;2;255;128;0m█\x1b[0m " ++
          "\x1b[38;2;255;0;0m█\x1b[0m " ++ fmtComma0 max_val]
      String.intercalate "\n"
        (titleLines ++ [header, sep] ++ rows ++ axisLines ++ legend)

end MatrixHeatmap

namespace MapRenderer

/-- Table `BRAILLE_DOTS[sub_y][sub_x]` (src/cheshire/map_renderer.py lines 13-19). -/
def braille_dots (sub_y sub_x : ℤ) : ℕ :=
  ([[0x01, 0x08], [0x02, 0x10], [0x04, 0x20], [0x40, 0x80]].getD sub_y.toNat []).getD
    sub_x.toNat 0

/-- The named-colour map of `_plot_points`/`_plot_blocks` (lines 178-192). -/
def color_map : List (String × String) :=
  [("red", "\x1b[91m"), ("green", "\x1b[92m"), ("yellow", "\x1b[93m"),
   ("blue", "\x1b[94m"), ("magenta", "\x1b[95m"), ("cyan", "\x1b[96m"),
   ("white", "\x1b[97m"), ("orange", "\x1b[38;5;208m"),
   ("purple", "\x1b[38;5;141m"), ("pink", "\x1b[38;5;213m"),
   ("brown", "\x1b[38;5;130m"), ("gray", "\x1b[90m"), ("grey", "\x1b[90m")]

/-- Projection of a `(lat, lon)` point to canvas `(y, x)` (lines 209-210). -/
def project (height : ℕ) (min_lat min_lon lat_scale lon_scale : ℚ)
    (lat lon : ℚ) : ℤ × ℤ :=
  ((height : ℤ) - 1 - pyInt ((lat - min_lat) * lat_scale),
   pyInt ((lon - min_lon) * lon_scale))

/-- The clipping guard `0 <= x < width and 0 <= y < height` (line 212). -/
def in_bounds (width height : ℕ) (y x : ℤ) : Prop :=
  0 ≤ x ∧ x < (width : ℤ) ∧ 0 ≤ y ∧ y < (height : ℤ)

instance (width height : ℕ) (y x : ℤ) : Decidable (in_bounds width height y x) := by
  unfold in_bounds
  infer_instance

/-- Python `zip(lats, lons)` paired with each point's colour entry `colors[i]`;
`""` stands for an absent, missing or empty colour (all falsy in Python). -/
def points_with_colors (lats lons : List ℚ) (colors : List String) :
    List ((ℚ × ℚ) × String) :=
  (lats.zip lons).enum.map (fun p => (p.2, colors.getD p.1 ""))

/-- One iteration of the `_plot_points` loop (lines 207-240) on the state
`(canvas, braille_canvas)`.  `uniq` models the `unique_colors` dict the
source precomputes from `set(colors)` (lines 195-203); its palette
assignment depends on Python set iteration order, so it is kept as a
parameter. -/
def plot_points_step (width height : ℕ)
    (min_lat min_lon lat_scale lon_scale : ℚ) (uniq : String → Option String)
    (st : List (List String) × List (List ℕ)) (pt : (ℚ × ℚ) × String) :
    List (List String) × List (List ℕ) :=
  let lat := pt.1.1
  let lon := pt.1.2
  let color := pt.2
  let yx := project height min_lat min_lon lat_scale lon_scale lat lon
  if in_bounds width height yx.1 yx.2 then
    let y := yx.1.toNat
    let x := yx.2.toNat
    let sub_y := (pyInt ((lat - min_lat) * lat_scale * 4)).emod 4
    let sub_x := (pyInt ((lon - min_lon) * lon_scale * 2)).emod 2
    let braille :=
      if sub_x < 2 ∧ sub_y < 4 then
        set2 st.2 y x (get2 st.2 y x 0 ||| braille_dots sub_y sub_x)
      else st.2
    let ch := (Char.ofNat (0x2800 + get2 braille y x 0)).toString
    let canvas :=
      if color ≠ "" then
        let code :=
          match color_map.lookup (pyLower color) with
          | some c => c
          | none =>
            match uniq color with
            | some c => c
            | none => ""
        if code ≠ "" then set2 st.1 y x (code ++ ch ++ "\x1b[0m")
        else set2 st.1 y x ch
      else set2 st.1 y x ch
    (canvas, braille)
  else st

/-- The `_plot_points` loop over all points. -/
def plot_points_aux (width height : ℕ)
    (min_lat min_lon lat_scale lon_scale : ℚ) (uniq : String → Option String)
    (pts : List ((ℚ × ℚ) × String))
    (st : List (List String) × List (List ℕ)) :
    List (List String) × List (List ℕ) :=
  pts.foldl (plot_points_step width height min_lat min_lon lat_scale lon_scale uniq) st

/-- Model of `_plot_points` (lines 172-240) from the raw latitude, longitude and
colour lists. -/
def plot_points (width height : ℕ)
    (min_lat min_lon lat_scale lon_scale : ℚ) (uniq : String → Option String)
    (lats lons : List ℚ) (colors : List String)
    (st : List (List String) × List (List ℕ)) :
    List (List String) × List (List ℕ) :=
  plot_points_aux width height min_lat min_lon lat_scale lon_scale uniq
    (points_with_colors lats lons colors) st

/-- Python float `x % 2.0`: remainder with the (positive) divisor's sign. -/
def pyMod2 (q : ℚ) : ℚ := q - 2 * (⌊q / 2⌋ : ℤ)

/-- One iteration of the `_plot_blocks` point loop (lines 279-301) on the
state `(block_canvas, color_grid)`: a block cell is an `(upper, lower)`
pair, and `""` stands for `None` in the colour grid. -/
def plot_blocks_step (width height : ℕ)
    (min_lat min_lon lat_scale lon_scale : ℚ) (uniq : String → Option String)
    (st : List (List (Bool × Bool)) × List (List String))
    (pt : (ℚ × ℚ) × String) :
    List (List (Bool × Bool)) × List (List String) :=
  let lat := pt.1.1
  let lon := pt.1.2
  let color := pt.2
  let yx := project height min_lat min_lon lat_scale lon_scale lat lon
  if in_bounds width height yx.1 yx.2 then
    let y := yx.1.toNat
    let x := yx.2.toNat
    let y_fraction := pyMod2 ((lat - min_lat) * lat_scale * 2)
    let cell := get2 st.1 y x (false, false)
    let blocks :=
      if y_fraction < 1 then set2 st.1 y x (cell.1, true)
      else set2 st.1 y x (true, cell.2)
    let grid :=
      if color ≠ "" then
        match color_map.lookup (pyLower color) with
        | some c => set2 st.2 y x c
        | none =>
          match uniq color with
          | some c => set2 st.2 y x c
          | none => st.2
      else st.2
    (blocks, grid)
  else st

/-- The `_plot_blocks` point loop over all points. -/
def plot_blocks_aux (width height : ℕ)
    (min_lat min_lon lat_scale lon_scale : ℚ) (uniq : String → Option String)
    (pts : List ((ℚ × ℚ) × String))
    (st : List (List (Bool × Bool)) × List (List String)) :
    List (List (Bool × Bool)) × List (List String) :=
  pts.foldl (plot_blocks_step width height min_lat min_lon lat_scale lon_scale uniq) st

/-- The conversion pass of `_plot_blocks` (lines 303-320): block cells to
half-block characters, coloured where the colour grid has an entry. -/
def blocks_to_canvas (width height : ℕ)
    (blocks : List (List (Bool × Bool))) (grid : List (List String)) :
    List (List String) :=
  (List.range height).map (fun y =>
    (List.range width).map (fun x =>
      let b := get2 blocks y x (false, false)
      let ch :=
        if b.1 ∧ b.2 then "█"
        else if b.1 then "▀"
        else if b.2 then "▄"
        else " "
      let c := get2 grid y x ""
      if ch ≠ " " ∧ c ≠ "" then c ++ ch ++ "\x1b[0m" else ch))

/-- Model of `_plot_blocks` (lines 242-320) end to end: run the point loop, then
convert the block canvas to characters. -/
def plot_blocks (width height : ℕ)
    (min_lat min_lon lat_scale lon_scale : ℚ) (uniq : String → Option String)
    (lats lons : List ℚ) (colors : List String)
    (st : List (List (Bool × Bool)) × List (List String)) :
    List (List String) :=
  let r := plot_blocks_aux width height min_lat min_lon lat_scale lon_scale uniq
    (points_with_colors lats lons colors) st
  blocks_to_canvas width height r.1 r.2

/-- Lexicographic order on `(dist, lat, lon)` triples, as Python compares
tuples when sorting. -/
def tripleLe (a b : ℚ × ℚ × ℚ) : Bool :=
  decide (a.1 < b.1) || (decide (a.1 = b.1) && (decide (a.2.1 < b.2.1) ||
    (decide (a.2.1 = b.2.1) && decide (a.2.2 ≤ b.2.2))))

/-- The `grid_counts` dict of lines 641-648 as an insertion-ordered
association list. -/
def bump_count (key : ℤ × ℤ) : List ((ℤ × ℤ) × ℕ) → List ((ℤ × ℤ) × ℕ)
  | [] => [(key, 1)]
  | (k, c) :: rest =>
    if k = key then (k, c + 1) :: rest else (k, c) :: bump_count key rest

/-- Python `max(grid_counts.items(), key=lambda x: x[1])`: the first maximal entry
in insertion order. -/
def max_by_count : List ((ℤ × ℤ) × ℕ) → Option ((ℤ × ℤ) × ℕ) :=
  List.foldl (fun acc kv =>
    match acc with
    | none => some kv
    | some best => if best.2 < kv.2 then some kv else some best) none

/-- Model of `_find_density_center` (src/cheshire/map_renderer.py lines 590-688) with
the default `target_coverage = 0.9`.  `sqrtQ` and `cosDeg` model
`math.sqrt` and `math.cos(math.radians(·))`, transcendental float
functions, as abstract parameters: every theorem below holds for any
choice.  The `width`/`height` arguments of the source are unused by its
body and omitted.  Returns
`(center_lat, center_lon, optimal_lat_range, optimal_lon_range)`. -/
def find_density_center (sqrtQ cosDeg : ℚ → ℚ) (ar : ℚ)
    (lats lons : List ℚ) : ℚ × ℚ × ℚ × ℚ :=
  let center_lat := lats.sum / (lats.length : ℚ)
  let center_lon := lons.sum / (lons.length : ℚ)
  let distances := (lats.zip lons).map (fun p =>
    let lat_dist := p.1 - center_lat
    let lon_dist := (p.2 - center_lon) * cosDeg center_lat
    (sqrtQ (lat_dist ^ 2 + lon_dist ^ 2), p.1, p.2))
  let sorted_d := pySortedBy tripleLe distances
  let target_count := pyInt ((distances.length : ℚ) * (9/10))
  let core_points := sorted_d.take target_count.toNat
  let core_lats := core_points.map (fun p => p.2.1)
  let core_lons := core_points.map (fun p => p.2.2)
  let core_center_lat :=
    if core_lats ≠ [] then core_lats.sum / (core_lats.length : ℚ) else center_lat
  let core_center_lon :=
    if core_lats ≠ [] then core_lons.sum / (core_lons.length : ℚ) else center_lon
  let grid_size : ℤ := 40
  let min_lat := pyMinQ lats
  let max_lat := pyMaxQ lats
  let min_lon := pyMinQ lons
  let max_lon := pyMaxQ lons
  let lat_step := if min_lat < max_lat then (max_lat - min_lat) / (grid_size : ℚ) else 1
  let lon_step := if min_lon < max_lon then (max_lon - min_lon) / (grid_size : ℚ) else 1
  let grid_counts := (lats.zip lons).foldl (fun acc p =>
    let lat_idx := if 0 < lat_step then pyInt ((p.1 - min_lat) / lat_step) else 0
    let lon_idx := if 0 < lon_step then pyInt ((p.2 - min_lon) / lon_step) else 0
    let lat_idx := min (max 0 lat_idx) (grid_size - 1)
    let lon_idx := min (max 0 lon_idx) (grid_size - 1)
    bump_count (lat_idx, lon_idx) acc) []
  let fc :=
    match max_by_count grid_counts with
    | some cell =>
      let peak_lat := min_lat + ((cell.1.1 : ℚ) + 1/2) * lat_step
      let peak_lon := min_lon + ((cell.1.2 : ℚ) + 1/2) * lon_step
      ((9/10) * core_center_lat + (1/10) * peak_lat,
       (9/10) * core_center_lon + (1/10) * peak_lon)
    | none => (core_center_lat, core_center_lon)
  let sorted_lat_dists :=
    pySortedBy (fun a b => decide (a ≤ b)) (lats.map (fun lat => |lat - fc.1|))
  let sorted_lon_dists :=
    pySortedBy (fun a b => decide (a ≤ b)) (lons.map (fun lon => |lon - fc.2|))
  let percentile_idx :=
    min (pyInt ((sorted_lat_dists.length : ℚ) * (9/10)))
      ((sorted_lat_dists.length : ℤ) - 1)
  let raw_lat_range := 2 * sorted_lat_dists.getD percentile_idx.toNat 0
  let raw_lon_range := 2 * sorted_lon_dists.getD percentile_idx.toNat 0
  let raw_lat_range := if 1 < ar then raw_lat_range / ar else raw_lat_range
  (fc.1, fc.2, max (1/1000) raw_lat_range * (133/100),
    max (1/1000) raw_lon_range * (9/5))

/-- The viewport computation of `render_map` (lines 104-147):
density-centred bounds when `center_on_density` is set and there are more
than two points, else padded min/max bounds with aspect-ratio correction.
Returns `(min_lat, max_lat, min_lon, max_lon)`. -/
def map_viewport (sqrtQ cosDeg : ℚ → ℚ) (ar : ℚ) (center_on_density : Bool)
    (lats lons : List ℚ) : ℚ × ℚ × ℚ × ℚ :=
  if center_on_density ∧ 2 < lats.length then
    let r := find_density_center sqrtQ cosDeg ar lats lons
    (r.1 - r.2.2.1 / 2, r.1 + r.2.2.1 / 2,
     r.2.1 - r.2.2.2 / 2, r.2.1 + r.2.2.2 / 2)
  else
    let min_lat := pyMinQ lats
    let max_lat := pyMaxQ lats
    let min_lon := pyMinQ lons
    let max_lon := pyMaxQ lons
    let lat_range := max_lat - min_lat
    let lon_range := max_lon - min_lon
    let lat_reduction := if 1 < ar then lat_range * (1 - 1 / ar) * (1/2) else 0
    let min_lat := min_lat + lat_reduction
    let max_lat := max_lat - lat_reduction
    let lat_padding := pyOrQ ((max_lat - min_lat) * (1/10)) 1
    let lon_padding := pyOrQ (lon_range * (1/10)) 1
    (min_lat - lat_padding, max_lat + lat_padding,
     min_lon - lon_padding, max_lon + lon_padding)

end MapRenderer

lemma pyRound_nonneg (q : ℚ) (h : 0 ≤ q) : 0 ≤ pyRound q := by
  have hf : (0 : ℤ) ≤ ⌊q⌋ := Int.floor_nonneg.mpr h
  unfold pyRound
  dsimp only
  split_ifs <;> omega

lemma pyRound_le (q : ℚ) (N : ℤ) (h : q ≤ (N : ℚ)) : pyRound q ≤ N := by
  have hf : ⌊q⌋ ≤ N := by
    have := Int.floor_le_floor h
    simpa using this
  have key : ¬(q - (⌊q⌋ : ℚ) < 1/2) → ⌊q⌋ + 1 ≤ N := by
    intro hh
    have h1 : (⌊q⌋ : ℚ) + 1/2 ≤ q := by
      have := not_lt.mp hh
      linarith
    have h2 : (⌊q⌋ : ℚ) < (N : ℚ) := by linarith
    have h3 : ⌊q⌋ < N := by exact_mod_cast h2
    omega
  unfold pyRound
  dsimp only
  split_ifs with h1 h2 h3
  · exact hf
  · exact key h1
  · exact hf
  · exact key h1

lemma cell_counts_aux_sum (total : ℚ) (tc : ℤ) (l : List ℚ) :
    ∀ rem : ℤ, l ≠ [] → (WaffleChart.cell_counts_aux total tc l rem).sum = rem := by
  induction l with
  | nil => intro rem h; exact absurd rfl h
  | cons v rest ih =>
    intro rem _
    cases rest with
    | nil => simp [WaffleChart.cell_counts_aux]
    | cons w t =>
      have h2 : (w :: t : List ℚ) ≠ [] := by simp
      simp only [WaffleChart.cell_counts_aux, List.sum_cons]
      rw [ih _ h2]
      ring

/-- C2: for every list of positive values and every cell budget
`total_cells`, the per-category cell counts of `render_waffle_chart`
(`round(value / total * total_cells)` for all but the last category, the
last receiving whatever remains) sum exactly to `total_cells`. -/
theorem claim_C2_waffle_cell_counts_sum (values : List ℚ) (total_cells : ℤ)
    (_hpos : ∀ v ∈ values, 0 < v) (hne : values ≠ []) :
    (WaffleChart.cell_counts values total_cells).sum = total_cells :=
  cell_counts_aux_sum values.sum total_cells values total_cells hne

/-- Witness for C2 at `values = [1, 2, 3]`, `total_cells = 100`. -/
theorem claim_C2_waffle_cell_counts_sum_witness :
    (∀ v ∈ [(1 : ℚ), 2, 3], 0 < v) ∧
      (WaffleChart.cell_counts [(1 : ℚ), 2, 3] 100).sum = 100 :=
  ⟨by decide,
   claim_C2_waffle_cell_counts_sum [1, 2, 3] 100 (by decide) (by decide)⟩

/-- C4 (code bug): `generate_colors` with the "distinct" scheme is total and
cycles the palette according to the spec, but the source expression
`palette * (n // len(palette) + 1)[:n]` subscripts an `int`, so the call
raises `TypeError` (modelled as `Except.error`, i.e. `toOption = none`) as
soon as `n` exceeds the palette length (16 colours for the waffle chart,
10 for the pie chart); below that length it returns the palette prefix. -/
theorem claim_C4_generate_colors_overflow :
    (WaffleChart.generate_colors 17 "distinct" []).toOption = none ∧
    (PieChart.generate_colors 11 "distinct" []).toOption = none ∧
    (WaffleChart.generate_colors 16 "distinct" []).toOption =
      some WaffleChart.distinct_palette ∧
    (PieChart.generate_colors 10 "distinct" []).toOption =
      some PieChart.distinct_palette := by
  decide

/-- C6: `render_pie_chart` applied to empty values and empty labels returns
exactly the literal string "No data to display", whatever the drawing stage
would do. -/
theorem claim_C6_pie_empty_input
    (body : List ℚ → ℚ → Option (List String) → String) :
    render_pie_chart body [] (some []) = "No data to display" := rfl

/-- C9: `render_matrix_heatmap` aggregates colliding `(x, y)` keys by
summation: on rows `[(x="A", y="R", v=3), (x="A", y="R", v=4)]` the pivot
cell for `(R, A)` equals 7, the colour scale then has `min = max = 7`, and
the normalisation for that cell evaluates to `1/2`, the gradient
midpoint. -/
theorem claim_C9_matrix_collision_sum :
    MatrixHeatmap.pivot_get ["A", "A"] ["R", "R"] [3, 4] "R" "A" = 7 ∧
    MatrixHeatmap.matrix_all_values ["A", "A"] ["R", "R"] [3, 4] = [7] ∧
    pyMinQ (MatrixHeatmap.matrix_all_values ["A", "A"] ["R", "R"] [3, 4]) = 7 ∧
    pyMaxQ (MatrixHeatmap.matrix_all_values ["A", "A"] ["R", "R"] [3, 4]) = 7 ∧
    MatrixHeatmap.matrix_normalized
      (MatrixHeatmap.pivot_get ["A", "A"] ["R", "R"] [3, 4] "R" "A")
      (pyMinQ (MatrixHeatmap.matrix_all_values ["A", "A"] ["R", "R"] [3, 4]))
      (pyMaxQ (MatrixHeatmap.matrix_all_values ["A", "A"] ["R", "R"] [3, 4])) =
      1/2 := by
  have h0 : MatrixHeatmap.matrix_cell_value [3, 4] 0 = 3 := by decide
  have h1 : MatrixHeatmap.matrix_cell_value [3, 4] 1 = 4 := by decide
  have hpiv : MatrixHeatmap.pivot_get ["A", "A"] ["R", "R"] [3, 4] "R" "A" = 7 := by
    norm_num [MatrixHeatmap.pivot_get, MatrixHeatmap.pivot_sum, h0, h1]
  have hav : MatrixHeatmap.matrix_all_values ["A", "A"] ["R", "R"] [3, 4] = [7] := by
    norm_num [MatrixHeatmap.matrix_all_values, MatrixHeatmap.matrix_unique_x,
      MatrixHeatmap.matrix_unique_y, MatrixHeatmap.sorted_strings,
      MatrixHeatmap.pivot_get, MatrixHeatmap.pivot_sum, h0, h1,
      pySortedBy, insSorted, List.dedup, List.filter]
  refine ⟨hpiv, hav, ?_, ?_, ?_⟩ <;>
    simp [hpiv, hav, pyMinQ, pyMaxQ, MatrixHeatmap.matrix_normalized]

lemma progress_filled_bounds (value total : ℚ) (w h : ℕ) :
    0 ≤ WaffleChart.progress_filled_cells value total w h ∧
      WaffleChart.progress_filled_cells value total w h ≤ ((w * h : ℕ) : ℤ) := by
  unfold WaffleChart.progress_filled_cells
  set p := min 1 (max 0 (value / total)) with hp
  have hp0 : 0 ≤ p := le_min (by norm_num) (le_max_left 0 _)
  have hp1 : p ≤ 1 := min_le_left _ _
  have hc0 : (0 : ℚ) ≤ ((w * h : ℕ) : ℚ) := by positivity
  have hq0 : 0 ≤ p * ((w * h : ℕ) : ℚ) := mul_nonneg hp0 hc0
  have hq1 : p * ((w * h : ℕ) : ℚ) ≤ ((w * h : ℕ) : ℚ) := by
    calc p * ((w * h : ℕ) : ℚ) ≤ 1 * ((w * h : ℕ) : ℚ) :=
          mul_le_mul_of_nonneg_right hp1 hc0
      _ = ((w * h : ℕ) : ℚ) := one_mul _
  refine ⟨pyRound_nonneg _ hq0, pyRound_le _ _ ?_⟩
  exact_mod_cast hq1

/-- C10: `render_progress_waffle` clamps `value / total` into `[0, 1]`
before rounding, so the filled-cell count always lies between 0 and
`width * height`; and for a non-positive `total` it returns the string
"Invalid total value" without dividing. -/
theorem claim_C10_progress_waffle_clamp (value total : ℚ) (w h : ℕ)
    (title : Option String) (fc ec : String) (cg cw cd : ℤ × ℤ × ℤ)
    (wt dt : ℚ) :
    (total ≤ 0 →
      WaffleChart.render_progress_waffle value total title w h fc ec cg cw cd wt dt =
        "Invalid total value") ∧
    (0 < total →
      0 ≤ WaffleChart.progress_filled_cells value total w h ∧
        WaffleChart.progress_filled_cells value total w h ≤ (w : ℤ) * (h : ℤ)) := by
  constructor
  · intro hle
    unfold WaffleChart.render_progress_waffle
    rw [if_pos hle]
  · intro _
    have hb := progress_filled_bounds value total w h
    refine ⟨hb.1, ?_⟩
    have := hb.2
    push_cast at this ⊢
    exact this

/-- Witness for C10: a value above `total` and a negative value both stay in
bounds, and a negative `total` yields the error string. -/
theorem claim_C10_progress_waffle_clamp_witness :
    WaffleChart.render_progress_waffle 5 (-1) none 20 5 "█" "░"
      (46, 204, 113) (241, 196, 15) (231, 76, 60) (7/10) (3/10) =
      "Invalid total value" ∧
    (0 ≤ WaffleChart.progress_filled_cells (-5) 10 20 5 ∧
      WaffleChart.progress_filled_cells (-5) 10 20 5 ≤ 20 * 5) ∧
    (0 ≤ WaffleChart.progress_filled_cells 5000 10 20 5 ∧
      WaffleChart.progress_filled_cells 5000 10 20 5 ≤ 20 * 5) :=
  ⟨(claim_C10_progress_waffle_clamp 5 (-1) 20 5 none "█" "░"
      (46, 204, 113) (241, 196, 15) (231, 76, 60) (7/10) (3/10)).1 (by norm_num),
   (claim_C10_progress_waffle_clamp (-5) 10 20 5 none "█" "░"
      (46, 204, 113) (241, 196, 15) (231, 76, 60) (7/10) (3/10)).2 (by norm_num),
   (claim_C10_progress_waffle_clamp 5000 10 20 5 none "█" "░"
      (46, 204, 113) (241, 196, 15) (231, 76, 60) (7/10) (3/10)).2 (by norm_num)⟩

lemma map_clamp_sum_zero {values : List ℚ} (h : ∀ v ∈ values, v = 0) :
    (values.map (fun v => max 0 v)).sum = 0 := by
  induction values with
  | nil => simp
  | cons a l ih =>
    simp only [List.map_cons, List.sum_cons]
    rw [h a (by simp), ih (fun v hv => h v (by simp [hv]))]
    simp

lemma pivot_sum_zero {cvs : List ℚ} (hz : ∀ v ∈ cvs, v = 0) (y x : String) :
    ∀ (l : List (String × String)) (i : ℕ), i + l.length ≤ cvs.length →
      MatrixHeatmap.pivot_sum cvs y x l i = 0 := by
  intro l
  induction l with
  | nil => intro i _; rfl
  | cons p rest ih =>
    intro i hlen
    obtain ⟨xv, yv⟩ := p
    have hi : i < cvs.length := by
      simp only [List.length_cons] at hlen
      omega
    have hcv : MatrixHeatmap.matrix_cell_value cvs i = 0 := by
      unfold MatrixHeatmap.matrix_cell_value
      have hne : cvs ≠ [] := by
        intro hc
        rw [hc] at hi
        simp at hi
      rw [if_pos ⟨hne, hi⟩, List.getD_eq_getElem cvs 0 hi]
      exact hz _ (List.getElem_mem hi)
    have hrest : MatrixHeatmap.pivot_sum cvs y x rest (i + 1) = 0 := by
      apply ih
      simp only [List.length_cons] at hlen
      omega
    unfold MatrixHeatmap.pivot_sum
    rw [hcv, hrest]
    split_ifs <;> simp

lemma pivot_get_zero {xs ys : List String} {cvs : List ℚ}
    (hz : ∀ v ∈ cvs, v = 0) (hlen : min xs.length ys.length ≤ cvs.length)
    (y x : String) : MatrixHeatmap.pivot_get xs ys cvs y x = 0 := by
  unfold MatrixHeatmap.pivot_get
  apply pivot_sum_zero hz
  rw [List.length_zip]
  simpa using hlen

lemma matrix_all_values_zero {xs ys : List String} {cvs : List ℚ}
    (hz : ∀ v ∈ cvs, v = 0) (hlen : min xs.length ys.length ≤ cvs.length) :
    MatrixHeatmap.matrix_all_values xs ys cvs = [] := by
  unfold MatrixHeatmap.matrix_all_values
  apply List.flatMap_eq_nil_iff.mpr
  intro y _
  apply List.filter_eq_nil_iff.mpr
  intro a ha
  obtain ⟨x, _, hx⟩ := List.mem_map.mp ha
  rw [← hx, pivot_get_zero hz hlen y x]
  simp

/-- C5 counterexample: on the all-zero input `[0]` the waffle renderer
returns "No data to display (all values are zero)", which is not the
literal "No data to display" that the claim asserts for every renderer. -/
theorem claim_C5_zero_values_counterexample :
    WaffleChart.render_waffle_chart [0] none none 100 10 "■" "□" true true
      "distinct" [] ≠ Except.ok "No data to display" := by
  have hz : WaffleChart.render_waffle_chart [0] none none 100 10 "■" "□" true true
      "distinct" [] = Except.ok "No data to display (all values are zero)" := by
    unfold WaffleChart.render_waffle_chart
    rw [if_neg (by simp)]
    simp only
    rw [if_pos (map_clamp_sum_zero (by simp))]
  rw [hz]
  intro hcontra
  have := Except.ok.inj hcontra
  exact absurd this (by decide)

/-- C5 (amended): on a non-empty input whose values are all zero, each
renderer returns a human-readable placeholder rather than raising:
`render_matrix_heatmap` returns exactly "No data to display", while
`render_waffle_chart` and `render_pie_chart` return
"No data to display (all values are zero)". -/
theorem claim_C5_zero_values_placeholder :
    (∀ (values : List ℚ) labels title tc cpr cc ec sl sp cs cust,
      values ≠ [] → (∀ v ∈ values, v = 0) →
      WaffleChart.render_waffle_chart values labels title tc cpr cc ec sl sp cs cust =
        Except.ok "No data to display (all values are zero)") ∧
    (∀ (body : List ℚ → ℚ → Option (List String) → String) values labels,
      values ≠ [] → (∀ v ∈ values, v = 0) →
      render_pie_chart body values labels =
        "No data to display (all values are zero)") ∧
    (∀ pf term xs ys cvs title xl yl w h vf sv cs,
      xs ≠ [] → ys ≠ [] → cvs ≠ [] → (∀ v ∈ cvs, v = 0) →
      min xs.length ys.length ≤ cvs.length →
      MatrixHeatmap.render_matrix_heatmap pf term xs ys cvs title xl yl w h vf sv cs =
        "No data to display") := by
  refine ⟨?_, ?_, ?_⟩
  · intro values labels title tc cpr cc ec sl sp cs cust hne hz
    unfold WaffleChart.render_waffle_chart
    rw [if_neg hne]
    simp only
    rw [if_pos (map_clamp_sum_zero hz)]
  · intro body values labels hne hz
    unfold render_pie_chart
    rw [if_neg hne]
    simp only
    rw [if_pos (map_clamp_sum_zero hz)]
  · intro pf term xs ys cvs title xl yl w h vf sv cs hx hy _ hz hlen
    unfold MatrixHeatmap.render_matrix_heatmap
    rw [if_neg (by simp [hx, hy])]
    simp only
    rw [if_pos (matrix_all_values_zero hz hlen)]

/-- Witness for C5 (amended) at concrete all-zero inputs for each of the
three renderers. -/
theorem claim_C5_zero_values_placeholder_witness :
    WaffleChart.render_waffle_chart [0] none none 100 10 "■" "□" true true
      "distinct" [] = Except.ok "No data to display (all values are zero)" ∧
    render_pie_chart (fun _ _ _ => "") [0, 0] none =
      "No data to display (all values are zero)" ∧
    MatrixHeatmap.render_matrix_heatmap (fun _ _ => "") none ["A"] ["R"] [0]
      none none none none none ".0f" false "green_yellow_red" =
      "No data to display" :=
  ⟨claim_C5_zero_values_placeholder.1 [0] none none 100 10 "■" "□" true true
      "distinct" [] (by simp) (by simp),
   claim_C5_zero_values_placeholder.2.1 (fun _ _ _ => "") [0, 0] none
      (by simp) (by simp),
   claim_C5_zero_values_placeholder.2.2 (fun _ _ => "") none ["A"] ["R"] [0]
      none none none none none ".0f" false "green_yellow_red"
      (by simp) (by simp) (by simp) (by simp) (by simp)⟩

/-- C1 counterexample: `render_matrix_heatmap` with default (`None`) width
and height queries the terminal size; with identical argument values but a
different ambient terminal width the returned output strings differ (the
title is centred to a different display width), so the renderer is not a
pure function of its arguments and performs I/O (the terminal-size query)
inside. -/
theorem claim_C1_renderer_purity_counterexample :
    MatrixHeatmap.render_matrix_heatmap (fun _ _ => "") (some (80, 24))
      ["A"] ["R"] [1] (some "T") none none none none ".0f" false
      "green_yellow_red" ≠
    MatrixHeatmap.render_matrix_heatmap (fun _ _ => "") (some (11, 24))
      ["A"] ["R"] [1] (some "T") none none none none ".0f" false
      "green_yellow_red" := by
  have hcv : MatrixHeatmap.matrix_cell_value [1] 0 = 1 := by decide
  have hux : MatrixHeatmap.matrix_unique_x ["A"] ["R"] [1] = ["A"] := by
    norm_num [MatrixHeatmap.matrix_unique_x, MatrixHeatmap.sorted_strings,
      pySortedBy, insSorted, List.dedup]
  have huy : MatrixHeatmap.matrix_unique_y ["A"] ["R"] [1] = ["R"] := by
    norm_num [MatrixHeatmap.matrix_unique_y, MatrixHeatmap.sorted_strings,
      pySortedBy, insSorted, List.dedup]
  have hpg : MatrixHeatmap.pivot_get ["A"] ["R"] [1] "R" "A" = 1 := by
    norm_num [MatrixHeatmap.pivot_get, MatrixHeatmap.pivot_sum, hcv]
  have hall : MatrixHeatmap.matrix_all_values ["A"] ["R"] [1] = [1] := by
    norm_num [MatrixHeatmap.matrix_all_values, hux, huy, hpg, List.filter]
  have hmin : pyMinQ [1] = 1 := by simp [pyMinQ]
  have hmax : pyMaxQ [1] = 1 := by simp [pyMaxQ]
  have hnorm : MatrixHeatmap.matrix_normalized 1 1 1 = 1/2 := by
    norm_num [MatrixHeatmap.matrix_normalized]
  have hheat : MatrixHeatmap.heat_color "green_yellow_red" (1/2) = (255, 255, 0) := by
    norm_num [MatrixHeatmap.heat_color, pyInt]
  have hmid : ((1 : ℚ) + 1) / 2 = 1 := by norm_num
  have hpr : pyRound |(1 : ℚ)| = 1 := by norm_num [pyRound]
  have hfmt : fmtComma0 1 = "1" := by
    simp only [fmtComma0, hpr]
    decide
  simp only [MatrixHeatmap.render_matrix_heatmap, hux, huy, hall, hpg, hmin,
    hmax, hnorm, hheat, hmid, hfmt, List.map_cons, List.map_nil]
  decide

/-- C1 (amended): the renderers are deterministic in their arguments
together with the ambient terminal geometry; `render_waffle_chart` and
`render_progress_waffle` read no environment at all, while
`render_pie_chart` (with `auto_size`), `MapRenderer.__init__` (with
omitted dimensions) and `render_matrix_heatmap` (with `width`/`height`
`None`) query the terminal size.  In particular, with both dimensions
supplied explicitly, `render_matrix_heatmap` is independent of the
terminal: the terminal-size parameter does not influence the output. -/
theorem claim_C1_renderers_deterministic_given_terminal
    (pf : String → ℚ → String) (xs ys : List String) (cvs : List ℚ)
    (title xl yl : Option String) (w h : ℤ) (vf : String) (sv : Bool)
    (cs : String) (t1 t2 : Option (ℤ × ℤ)) :
    MatrixHeatmap.render_matrix_heatmap pf t1 xs ys cvs title xl yl
      (some w) (some h) vf sv cs =
    MatrixHeatmap.render_matrix_heatmap pf t2 xs ys cvs title xl yl
      (some w) (some h) vf sv cs := rfl

lemma pie_angles_aux_length {K : Type} [LinearOrderedField K]
    (pi total cur : K) (l : List K) :
    (pie_angles_aux pi total cur l).length = l.length := by
  induction l generalizing cur with
  | nil => rfl
  | cons v rest ih => simp [pie_angles_aux, ih]

lemma pie_angles_aux_head_fst {K : Type} [LinearOrderedField K]
    (pi total cur : K) (l : List K)
    (h : 0 < (pie_angles_aux pi total cur l).length) :
    ((pie_angles_aux pi total cur l).get ⟨0, h⟩).1 = cur := by
  cases l with
  | nil => simp [pie_angles_aux] at h
  | cons v rest => simp [pie_angles_aux]

lemma pie_angles_aux_chain {K : Type} [LinearOrderedField K]
    (pi total : K) (l : List K) :
    ∀ (cur : K) (i : ℕ) (hi : i + 1 < (pie_angles_aux pi total cur l).length),
      ((pie_angles_aux pi total cur l).get ⟨i, by omega⟩).2 =
        ((pie_angles_aux pi total cur l).get ⟨i + 1, hi⟩).1 := by
  induction l with
  | nil => intro cur i hi; simp [pie_angles_aux] at hi
  | cons v rest ih =>
    intro cur i hi
    cases i with
    | zero =>
      have hr : 0 < (pie_angles_aux pi total (cur + v / total * 2 * pi) rest).length := by
        simp only [pie_angles_aux, List.length_cons] at hi
        omega
      simpa [pie_angles_aux] using (pie_angles_aux_head_fst pi total _ rest hr).symm
    | succ n =>
      have hn : n + 1 < (pie_angles_aux pi total (cur + v / total * 2 * pi) rest).length := by
        simp only [pie_angles_aux, List.length_cons] at hi
        omega
      simpa [pie_angles_aux] using ih (cur + v / total * 2 * pi) n hn

lemma pie_angles_aux_sum {K : Type} [LinearOrderedField K]
    (pi total : K) (l : List K) :
    ∀ cur : K, ((pie_angles_aux pi total cur l).map (fun p => p.2 - p.1)).sum =
      l.sum / total * 2 * pi := by
  induction l with
  | nil => intro cur; simp [pie_angles_aux]
  | cons v rest ih =>
    intro cur
    simp only [pie_angles_aux, List.map_cons, List.sum_cons, ih]
    rw [add_div]
    ring

/-- C3: for every non-empty list of positive values, the pie chart's sector
angles start at `-pi / 2`, consecutive sectors are contiguous
(`sectors[i].end = sectors[i+1].start`), and the sector extents sum to
`2 * pi` within `1e-6` (here: exactly, instantiated at the real `pi`). -/
theorem claim_C3_pie_angles (values : List ℝ) (hne : values ≠ [])
    (hpos : ∀ v ∈ values, 0 < v) :
    ((pie_angles Real.pi values).head?).map Prod.fst = some (-(Real.pi / 2)) ∧
    (∀ (i : ℕ) (hi : i + 1 < (pie_angles Real.pi values).length),
      ((pie_angles Real.pi values).get ⟨i, by omega⟩).2 =
        ((pie_angles Real.pi values).get ⟨i + 1, hi⟩).1) ∧
    |((pie_angles Real.pi values).map (fun p => p.2 - p.1)).sum - 2 * Real.pi| ≤
      1e-6 := by
  have htot : (0 : ℝ) < values.sum := List.sum_pos values hpos hne
  refine ⟨?_, ?_, ?_⟩
  · cases values with
    | nil => exact absurd rfl hne
    | cons v rest => simp [pie_angles, pie_angles_aux]
  · intro i hi
    exact pie_angles_aux_chain Real.pi values.sum values (-(Real.pi / 2)) i hi
  · rw [pie_angles, pie_angles_aux_sum, div_self (ne_of_gt htot)]
    norm_num

/-- Witness for C3 at `values = [1, 2, 3]`. -/
theorem claim_C3_pie_angles_witness :
    ((pie_angles Real.pi [(1 : ℝ), 2, 3]).head?).map Prod.fst =
      some (-(Real.pi / 2)) ∧
    (∀ (i : ℕ) (hi : i + 1 < (pie_angles Real.pi [(1 : ℝ), 2, 3]).length),
      ((pie_angles Real.pi [(1 : ℝ), 2, 3]).get ⟨i, by omega⟩).2 =
        ((pie_angles Real.pi [(1 : ℝ), 2, 3]).get ⟨i + 1, hi⟩).1) ∧
    |((pie_angles Real.pi [(1 : ℝ), 2, 3]).map (fun p => p.2 - p.1)).sum -
      2 * Real.pi| ≤ 1e-6 :=
  claim_C3_pie_angles [(1 : ℝ), 2, 3] (by simp) (by norm_num)

lemma plot_points_step_oob (width height : ℕ)
    (min_lat min_lon lat_scale lon_scale : ℚ) (uniq : String → Option String)
    (lat lon : ℚ) (c : String)
    (hoob : ¬ MapRenderer.in_bounds width height
      (MapRenderer.project height min_lat min_lon lat_scale lon_scale lat lon).1
      (MapRenderer.project height min_lat min_lon lat_scale lon_scale lat lon).2)
    (st : List (List String) × List (List ℕ)) :
    MapRenderer.plot_points_step width height min_lat min_lon lat_scale lon_scale uniq
      st ((lat, lon), c) = st := by
  unfold MapRenderer.plot_points_step
  dsimp only
  rw [if_neg hoob]

lemma plot_blocks_step_oob (width height : ℕ)
    (min_lat min_lon lat_scale lon_scale : ℚ) (uniq : String → Option String)
    (lat lon : ℚ) (c : String)
    (hoob : ¬ MapRenderer.in_bounds width height
      (MapRenderer.project height min_lat min_lon lat_scale lon_scale lat lon).1
      (MapRenderer.project height min_lat min_lon lat_scale lon_scale lat lon).2)
    (st : List (List (Bool × Bool)) × List (List String)) :
    MapRenderer.plot_blocks_step width height min_lat min_lon lat_scale lon_scale uniq
      st ((lat, lon), c) = st := by
  unfold MapRenderer.plot_blocks_step
  dsimp only
  rw [if_neg hoob]

lemma foldl_insert_noop {α σ : Type} (f : σ → α → σ) (a : α)
    (ha : ∀ s, f s a = s) (l1 l2 : List α) :
    ∀ s : σ, (l1 ++ a :: l2).foldl f s = (l1 ++ l2).foldl f s := by
  induction l1 with
  | nil => intro s; simp [ha]
  | cons x xs ih => intro s; simp only [List.cons_append, List.foldl_cons]; exact ih _

/-- C8: a point whose projected `(row, col)` falls outside
`[0, height) x [0, width)` is silently clipped: the plotting step leaves the
canvases unchanged, so plotting a point list with and without such an
out-of-bounds point produces identical canvas contents, for both
`_plot_points` and `_plot_blocks`. -/
theorem claim_C8_map_canvas_clipping (width height : ℕ)
    (min_lat min_lon lat_scale lon_scale : ℚ) (uniq : String → Option String)
    (l1 l2 : List ((ℚ × ℚ) × String)) (lat lon : ℚ) (c : String)
    (hoob : ¬ MapRenderer.in_bounds width height
      (MapRenderer.project height min_lat min_lon lat_scale lon_scale lat lon).1
      (MapRenderer.project height min_lat min_lon lat_scale lon_scale lat lon).2) :
    (∀ st, MapRenderer.plot_points_aux width height min_lat min_lon lat_scale
        lon_scale uniq (l1 ++ ((lat, lon), c) :: l2) st =
      MapRenderer.plot_points_aux width height min_lat min_lon lat_scale
        lon_scale uniq (l1 ++ l2) st) ∧
    (∀ st, MapRenderer.plot_blocks_aux width height min_lat min_lon lat_scale
        lon_scale uniq (l1 ++ ((lat, lon), c) :: l2) st =
      MapRenderer.plot_blocks_aux width height min_lat min_lon lat_scale
        lon_scale uniq (l1 ++ l2) st) := by
  constructor
  · intro st
    exact foldl_insert_noop _ _
      (plot_points_step_oob width height min_lat min_lon lat_scale lon_scale uniq
        lat lon c hoob) l1 l2 st
  · intro st
    exact foldl_insert_noop _ _
      (plot_blocks_step_oob width height min_lat min_lon lat_scale lon_scale uniq
        lat lon c hoob) l1 l2 st

lemma foldl_min_self (a : ℚ) : ∀ m : ℕ, (List.replicate m a).foldl min a = a := by
  intro m
  induction m with
  | zero => rfl
  | succ n ih => simpa [List.replicate_succ, min_self] using ih

lemma foldl_max_self (a : ℚ) : ∀ m : ℕ, (List.replicate m a).foldl max a = a := by
  intro m
  induction m with
  | zero => rfl
  | succ n ih => simpa [List.replicate_succ, max_self] using ih

lemma pyMinQ_replicate (a : ℚ) (N : ℕ) (hN : 1 ≤ N) :
    pyMinQ (List.replicate N a) = a := by
  obtain ⟨m, rfl⟩ : ∃ m, N = m + 1 := ⟨N - 1, by omega⟩
  simp only [List.replicate_succ, pyMinQ]
  exact foldl_min_self a m

lemma pyMaxQ_replicate (a : ℚ) (N : ℕ) (hN : 1 ≤ N) :
    pyMaxQ (List.replicate N a) = a := by
  obtain ⟨m, rfl⟩ : ∃ m, N = m + 1 := ⟨N - 1, by omega⟩
  simp only [List.replicate_succ, pyMaxQ]
  exact foldl_max_self a m

lemma max_floor_mul_lat (e : ℚ) : (133/100000 : ℚ) ≤ max (1/1000) e * (133/100) := by
  have h := le_max_left (1/1000 : ℚ) e
  nlinarith

lemma max_floor_mul_lon (e : ℚ) : (9/5000 : ℚ) ≤ max (1/1000) e * (9/5) := by
  have h := le_max_left (1/1000 : ℚ) e
  nlinarith

lemma fdc_lat_range_ge (sq cd : ℚ → ℚ) (ar : ℚ) (lats lons : List ℚ) :
    (133/100000 : ℚ) ≤ (MapRenderer.find_density_center sq cd ar lats lons).2.2.1 := by
  unfold MapRenderer.find_density_center
  dsimp only
  exact max_floor_mul_lat _

lemma fdc_lon_range_ge (sq cd : ℚ → ℚ) (ar : ℚ) (lats lons : List ℚ) :
    (9/5000 : ℚ) ≤ (MapRenderer.find_density_center sq cd ar lats lons).2.2.2 := by
  unfold MapRenderer.find_density_center
  dsimp only
  exact max_floor_mul_lon _

/-- C7: for every list of N >= 1 identical points the viewport computed by
`render_map` has a latitude span and a longitude span of at least `0.001`
(the span floor), so the downstream scale divisions
`(height - 1) / latSpan` and `(width - 1) / lonSpan` never divide by
zero.  This holds on both the density-centred branch and the padded
min/max branch, for any aspect ratio, and for any model of the
transcendental `sqrt`/`cos` helpers. -/
theorem claim_C7_map_viewport_span_floor (sq cd : ℚ → ℚ) (ar : ℚ) (cdens : Bool) (lat lon : ℚ)
    (N : ℕ) (hN : 1 ≤ N) :
    (1/1000 : ℚ) ≤
      (MapRenderer.map_viewport sq cd ar cdens (List.replicate N lat)
          (List.replicate N lon)).2.1 -
        (MapRenderer.map_viewport sq cd ar cdens (List.replicate N lat)
          (List.replicate N lon)).1 ∧
    (1/1000 : ℚ) ≤
      (MapRenderer.map_viewport sq cd ar cdens (List.replicate N lat)
          (List.replicate N lon)).2.2.2 -
        (MapRenderer.map_viewport sq cd ar cdens (List.replicate N lat)
          (List.replicate N lon)).2.2.1 := by
  unfold MapRenderer.map_viewport
  split_ifs with hc
  · dsimp only
    constructor
    · have h := fdc_lat_range_ge sq cd ar (List.replicate N lat) (List.replicate N lon)
      linarith
    · have h := fdc_lon_range_ge sq cd ar (List.replicate N lat) (List.replicate N lon)
      linarith
  all_goals {
    simp only [pyMinQ_replicate lat N hN, pyMaxQ_replicate lat N hN,
      pyMinQ_replicate lon N hN, pyMaxQ_replicate lon N hN, sub_self, zero_mul,
      mul_zero, add_zero, sub_zero, ite_self, pyOrQ]
    norm_num }

/-- Witness for C7 at a single repeated point `(10, 20)` (and, through the
theorem, any other instantiation of the abstract `sqrt`/`cos`). -/
theorem claim_C7_map_viewport_span_floor_witness :
    (1/1000 : ℚ) ≤
      (MapRenderer.map_viewport (fun _ => 0) (fun _ => 1) 2 true
          (List.replicate 1 (10 : ℚ)) (List.replicate 1 (20 : ℚ))).2.1 -
        (MapRenderer.map_viewport (fun _ => 0) (fun _ => 1) 2 true
          (List.replicate 1 (10 : ℚ)) (List.replicate 1 (20 : ℚ))).1 ∧
    (1/1000 : ℚ) ≤
      (MapRenderer.map_viewport (fun _ => 0) (fun _ => 1) 2 true
          (List.replicate 1 (10 : ℚ)) (List.replicate 1 (20 : ℚ))).2.2.2 -
        (MapRenderer.map_viewport (fun _ => 0) (fun _ => 1) 2 true
          (List.replicate 1 (10 : ℚ)) (List.replicate 1 (20 : ℚ))).2.2.1 :=
  claim_C7_map_viewport_span_floor (fun _ => 0) (fun _ => 1) 2 true 10 20 1
    (by norm_num)

/-- Witness for C8: the point `(100, 0)` projects to row `-99` on a 2 x 2
canvas and is clipped, so inserting it into a point list does not change
either plot. -/
theorem claim_C8_map_canvas_clipping_witness :
    (∀ st, MapRenderer.plot_points_aux 2 2 0 0 1 1 (fun _ => none)
        ([((0, 0), "")] ++ ((100, 0), "red") :: []) st =
      MapRenderer.plot_points_aux 2 2 0 0 1 1 (fun _ => none)
        ([((0, 0), "")] ++ []) st) ∧
    (∀ st, MapRenderer.plot_blocks_aux 2 2 0 0 1 1 (fun _ => none)
        ([((0, 0), "")] ++ ((100, 0), "red") :: []) st =
      MapRenderer.plot_blocks_aux 2 2 0 0 1 1 (fun _ => none)
        ([((0, 0), "")] ++ []) st) :=
  claim_C8_map_canvas_clipping 2 2 0 0 1 1 (fun _ => none)
    [((0, 0), "")] [] 100 0 "red"
    (by norm_num [MapRenderer.in_bounds, MapRenderer.project, pyInt])
